import Mathlib

/-!
Verification of the `eth-log-decoder` repository: the log classifier/decoder and
run orchestrator of `get_erc20_tokens/cloud_functions/decode_logs.py`, and the
helper functions of `get_erc20_tokens/utils/helpers.py`.

Data model: per `init.py`, the raw log table stores `topics` as `ARRAY<BYTES>`
and `data` as `BYTES`; the BigQuery client hands these to Python as `bytes`
values. We embed Python byte strings as `List Nat` (entries reduced mod 256)
and keep the Python `str`/`bytes` distinction explicit, because the decoder
mixes the two (`"0x" + l.topics[1][-20:]` concatenates a `str` with a `bytes`,
which raises `TypeError` in Python).
-/

/-- A Python byte string: a list of byte values. -/
abbrev Bytes := List Nat

/-- Lowercase hex digit for `n % 16`. -/
def hexDigit (n : Nat) : Char :=
  let m := n % 16
  if m < 10 then Char.ofNat (48 + m) else Char.ofNat (87 + m)

/-- Two lowercase hex digits of a byte value (`b % 256`), high nibble first. -/
def byteHex (b : Nat) : String :=
  String.mk [hexDigit ((b % 256) / 16), hexDigit (b % 16)]

/-- Python `bytes.hex()`: lowercase hex, two digits per byte. -/
def bytesHex (bs : Bytes) : String :=
  String.join (bs.map byteHex)

/-- Big-endian unsigned value of a byte string; `int(bs.hex(), 16)` for
nonempty `bs`. -/
def bytesToNat (bs : Bytes) : Nat :=
  bs.foldl (fun a b => a * 256 + b % 256) 0

/-- Python `str.lower()` on an ASCII string: map uppercase letters to
lowercase, character by character. -/
def pyLower (s : String) : String :=
  String.mk (s.toList.map fun c =>
    if 65 ≤ c.toNat ∧ c.toNat ≤ 90 then Char.ofNat (c.toNat + 32) else c)

/-- Python slice `bs[-n:]`: the trailing `min n (length bs)` elements. -/
def pySliceLast (n : Nat) (bs : Bytes) : Bytes :=
  bs.drop (bs.length - n)

/-! Keccak-256

`utils/helpers.py` line 58 computes `keccak(text="Transfer(address,address,uint256)")`
via `eth_utils.keccak`, which is Keccak-256 (original Keccak padding `0x01`,
not SHA3's `0x06`). We implement the algorithm so that `transfer_hash` is the
genuine hash value. State: 25 lanes of 64 bits, lane `(x, y)` at index
`x + 5 * y`, all arithmetic on `Nat` reduced mod `2^64`. -/

/-- 64-bit left rotation. -/
def rotl64 (a n : Nat) : Nat :=
  let a := a % (2 ^ 64)
  let n := n % 64
  ((a <<< n) % (2 ^ 64)) ||| (a >>> (64 - n))

/-- Lane lookup in a 25-element state, index `x + 5 * y`. -/
def lane (s : List Nat) (x y : Nat) : Nat :=
  s.getD (x % 5 + 5 * (y % 5)) 0

/-- The π orbit of lane `(1, 0)`: step `t` sits at
`rhoOrbit t` with `(x, y) ↦ (y, (2x + 3y) % 5)`. -/
def rhoOrbit : Nat → Nat × Nat
  | 0 => (1, 0)
  | t + 1 =>
    let p := rhoOrbit t
    (p.2, (2 * p.1 + 3 * p.2) % 5)

/-- Keccak ρ rotation offsets, flattened at index `x + 5 * y`: the `t`-th
lane along the π orbit rotates by the triangular number `(t+1)(t+2)/2 mod 64`;
lane `(0, 0)` is not rotated. -/
def rhoOffsets : List Nat :=
  (List.range 25).map fun i =>
    match (List.range 24).find? fun t =>
        (rhoOrbit t).1 + 5 * (rhoOrbit t).2 = i with
    | some t => (t + 1) * (t + 2) / 2 % 64
    | none => 0

/-- Keccak ι round constants for the 24 rounds of Keccak-f[1600]
(the standard values, written in decimal). -/
def keccakRC : List Nat :=
  [1, 32898, 9223372036854808714,
   9223372039002292224, 32907, 2147483649,
   9223372039002292353, 9223372036854808585, 138,
   136, 2147516425, 2147483658,
   2147516555, 9223372036854775947, 9223372036854808713,
   9223372036854808579, 9223372036854808578, 9223372036854775936,
   32778, 9223372039002259466, 9223372039002292353,
   9223372036854808704, 2147483649, 9223372039002292232]

/-- θ step. -/
def keccakTheta (s : List Nat) : List Nat :=
  let c := (List.range 5).map fun x =>
    lane s x 0 ^^^ lane s x 1 ^^^ lane s x 2 ^^^ lane s x 3 ^^^ lane s x 4
  let d := (List.range 5).map fun x =>
    c.getD ((x + 4) % 5) 0 ^^^ rotl64 (c.getD ((x + 1) % 5) 0) 1
  (List.range 25).map fun i => s.getD i 0 ^^^ d.getD (i % 5) 0

/-- Combined ρ and π steps: output lane `(X, Y)` is the input lane
`(x, y) = ((X + 3 * Y) % 5, X)` rotated by its ρ offset. -/
def keccakRhoPi (s : List Nat) : List Nat :=
  (List.range 25).map fun i =>
    let xo := i % 5
    let yo := i / 5
    let xi := (xo + 3 * yo) % 5
    let yi := xo
    rotl64 (lane s xi yi) (rhoOffsets.getD (xi + 5 * yi) 0)

/-- χ step. -/
def keccakChi (s : List Nat) : List Nat :=
  (List.range 25).map fun i =>
    let x := i % 5
    let y := i / 5
    lane s x y ^^^ ((2 ^ 64 - 1 - lane s (x + 1) y) &&& lane s (x + 2) y)

/-- One round of Keccak-f[1600]: θ, ρ, π, χ, then ι with round constant `rc`. -/
def keccakRound (rc : Nat) (s : List Nat) : List Nat :=
  let t := keccakChi (keccakRhoPi (keccakTheta s))
  match t with
  | [] => []
  | a :: rest => (a ^^^ rc) :: rest

/-- Keccak-f[1600]: the 24 rounds in order. -/
def keccakF (s : List Nat) : List Nat :=
  keccakRC.foldl (fun st rc => keccakRound rc st) s

/-- Multi-rate padding `pad10*1` with Keccak domain byte `0x01`. -/
def keccakPad (rate : Nat) (msg : Bytes) : Bytes :=
  let padlen := rate - msg.length % rate
  if padlen == 1 then msg ++ [0x81]
  else msg ++ [0x01] ++ List.replicate (padlen - 2) 0 ++ [0x80]

/-- A little-endian 8-byte chunk as a 64-bit lane. -/
def bytesToLane (bs : Bytes) : Nat :=
  bs.foldr (fun b acc => acc * 256 + b % 256) 0

/-- A 64-bit lane as 8 little-endian bytes. -/
def laneToBytes (n : Nat) : Bytes :=
  (List.range 8).map fun i => (n >>> (8 * i)) % 256

/-- Absorb one `rate`-byte block into the state and permute. -/
def keccakAbsorbBlock (rate : Nat) (s : List Nat) (block : Bytes) : List Nat :=
  let lanes := rate / 8
  keccakF <| (List.range 25).map fun i =>
    if i < lanes then s.getD i 0 ^^^ bytesToLane ((block.drop (8 * i)).take 8)
    else s.getD i 0

/-- Absorb `n` leading `rate`-byte blocks of `bs` in order. -/
def absorbBlocks (rate : Nat) : Nat → List Nat → Bytes → List Nat
  | 0, s, _ => s
  | n + 1, s, bs =>
    absorbBlocks rate n (keccakAbsorbBlock rate s (bs.take rate)) (bs.drop rate)

/-- Keccak-256 of a byte string: absorb at rate 136, squeeze 32 bytes. -/
def keccak256 (msg : Bytes) : Bytes :=
  let rate := 136
  let padded := keccakPad rate msg
  let s := absorbBlocks rate (padded.length / rate) (List.replicate 25 0) padded
  ((s.take 4).map laneToBytes).flatten

/-- UTF-8 bytes of an ASCII string (all characters here are ASCII, so the code
points are the bytes). -/
def strToBytes (s : String) : Bytes :=
  s.toList.map Char.toNat

/-- Lines 56-58 of `utils/helpers.py`: `transfer_hash()` returns
`"0x" + keccak(text="Transfer(address,address,uint256)").hex()`. -/
def transfer_hash : String :=
  "0x" ++ bytesHex (keccak256 (strToBytes "Transfer(address,address,uint256)"))

/-! Data model

`init.py` declares the raw log table: `address STRING`, `blockNumber INTEGER`,
`blockTimestamp DATETIME`, `data BYTES`, `topics ARRAY<BYTES>`,
`transactionHash BYTES`. Timestamps are embedded as integers. -/

/-- One raw log row as returned by `get_blocks` (`utils/helpers.py` 71-77). -/
structure RawLog where
  address : String
  blockNumber : Int
  blockTimestamp : Int
  data : Bytes
  topics : List Bytes
  transactionHash : Bytes
deriving DecidableEq, Repr

/-! Python value semantics

The decoder builds each output field with Python expressions over `str` and
`bytes` values. `+` on `str` and `bytes` operands of different kinds raises
`TypeError`; out-of-range indexing raises `IndexError`. We model the values
and the fallible operations explicitly. -/

/-- Python exceptions the decoder can raise and catches
(`decode_logs.py` lines 157 and 176 catch `ValueError`, `IndexError`,
`AttributeError`, `TypeError`; line 182 catches everything else). -/
inductive PyErr where
  | typeError
  | valueError
  | indexError
  | attributeError
deriving DecidableEq, Repr

/-- A Python value of type `str` or `bytes`. -/
inductive PyVal where
  | vStr (s : String)
  | vBytes (b : Bytes)
deriving DecidableEq, Repr

/-- Python `+` on `str`/`bytes` values: concatenation when the kinds agree,
`TypeError` when they differ. -/
def pyAdd : PyVal → PyVal → Except PyErr PyVal
  | .vStr a, .vStr b => .ok (.vStr (a ++ b))
  | .vBytes a, .vBytes b => .ok (.vBytes (a ++ b))
  | _, _ => .error .typeError

/-- Python list indexing: `IndexError` when out of range. -/
def pyListGet (xs : List Bytes) (i : Nat) : Except PyErr Bytes :=
  match xs.get? i with
  | some x => .ok x
  | none => .error .indexError

/-! Event classifier and decoder, `decode_logs.py` lines 136-186. -/

/-- A decoded ERC-721 row (`decode_logs.py` lines 147-155). `from_address`
and `to_address` keep the Python value the code would store. -/
structure ERC721Row where
  block_number : Int
  block_timestamp : Int
  transaction_hash : Bytes
  from_address : PyVal
  to_address : PyVal
  id : Nat
  processed_timestamp : Int
deriving DecidableEq, Repr

/-- A decoded ERC-20 row (`decode_logs.py` lines 165-174). -/
structure ERC20Row where
  from_address : PyVal
  to_address : PyVal
  value : Nat
  contract_address : String
  transaction_hash : Bytes
  block_number : Int
  processed_timestamp : Int
  block_timestamp : Int
deriving DecidableEq, Repr

/-- Lines 147-155 of `decode_logs.py`: build the ERC-721 row. Field order follows
the dict literal; `from_address` is `"0x" + l.topics[1][-20:]`, a `str` plus a
`bytes` slice, and `id` is `int(l.data.hex(), 16) if l.data else 0`. -/
def buildERC721Row (l : RawLog) (now : Int) : Except PyErr ERC721Row := do
  let t1 ← pyListGet l.topics 1
  let t2 ← pyListGet l.topics 2
  let fa ← pyAdd (.vStr "0x") (.vBytes (pySliceLast 20 t1))
  let ta ← pyAdd (.vStr "0x") (.vBytes (pySliceLast 20 t2))
  .ok { block_number := l.blockNumber
        block_timestamp := l.blockTimestamp
        transaction_hash := l.transactionHash
        from_address := fa
        to_address := ta
        id := if l.data.isEmpty then 0 else bytesToNat l.data
        processed_timestamp := now }

/-- Lines 165-174 of `decode_logs.py`: build the ERC-20 row. `from_address` is
`"0x" + l.topics[1][-20:]`, and `value` is
`int(l.data.hex(), 16) if l.data else 0`. -/
def buildERC20Row (l : RawLog) (now : Int) : Except PyErr ERC20Row := do
  let t1 ← pyListGet l.topics 1
  let t2 ← pyListGet l.topics 2
  let fa ← pyAdd (.vStr "0x") (.vBytes (pySliceLast 20 t1))
  let ta ← pyAdd (.vStr "0x") (.vBytes (pySliceLast 20 t2))
  .ok { from_address := fa
        to_address := ta
        value := if l.data.isEmpty then 0 else bytesToNat l.data
        contract_address := l.address
        transaction_hash := l.transactionHash
        block_number := l.blockNumber
        processed_timestamp := now
        block_timestamp := l.blockTimestamp }

/-- Line 145 of `decode_logs.py`: `len(l.topics) > 0 and len(l.topics) == 4`. -/
def matches721 (l : RawLog) : Prop :=
  l.topics.length > 0 ∧ l.topics.length = 4

instance (l : RawLog) : Decidable (matches721 l) := by
  unfold matches721; infer_instance

/-- Line 163 of `decode_logs.py`:
`len(l.topics) == 3 and ("0x" + l.topics[0].hex().lower()) == transfer_hash_val`.
The guard on the length makes the `topics[0]` access safe, so we read it with
`getD`. -/
def matches20 (transferHashVal : String) (l : RawLog) : Prop :=
  l.topics.length = 3 ∧
    "0x" ++ pyLower (bytesHex (l.topics.getD 0 [])) = transferHashVal

instance (th : String) (l : RawLog) : Decidable (matches20 th l) := by
  unfold matches20; infer_instance

/-- One iteration of the loop at `decode_logs.py` lines 142-184: the matching
branch builds a row and appends it to the respective accumulator; any of the
caught exceptions (`ValueError`, `IndexError`, `AttributeError`, `TypeError`
at lines 157/176, anything else at line 182) skips the log. -/
def stepLog (transferHashVal : String) (now : Int)
    (acc : List ERC20Row × List ERC721Row) (l : RawLog) :
    List ERC20Row × List ERC721Row :=
  if matches721 l then
    match buildERC721Row l now with
    | .ok r => (acc.1, acc.2 ++ [r])
    | .error _ => acc
  else if matches20 transferHashVal l then
    match buildERC20Row l now with
    | .ok r => (acc.1 ++ [r], acc.2)
    | .error _ => acc
  else acc

/-- The full decode loop: `erc20_data` and `erc721_data` after
`decode_logs.py` lines 138-184, starting from empty lists. -/
def processLogs (transferHashVal : String) (now : Int) (logs : List RawLog) :
    List ERC20Row × List ERC721Row :=
  logs.foldl (stepLog transferHashVal now) ([], [])

/-! Checkpoint reader, `utils/helpers.py` lines 63-69.

`get_block_number` runs
`SELECT max(blockNumber) FROM ... WHERE processed_timestamp = TIMESTAMP_SUB(CURRENT_TIMESTAMP(), INTERVAL 3 DAY)`.
We embed the checkpoint table as a list of rows and the query over it:
the `WHERE` clause is an equality with the single instant exactly three days
before `now`, and SQL `MAX` over an empty selection is `NULL` (Python `None`).
Timestamps are in seconds; one day is 86400 seconds. -/

/-- One row of the checkpoint table (`init.py`: `blockNumber NUMERIC`,
`processed_timestamp TIMESTAMP`). -/
structure CheckpointRow where
  blockNumber : Int
  processed_timestamp : Int
deriving DecidableEq, Repr

/-- Python `max` over a list of integers (only used on nonempty lists). -/
def pyMax (xs : List Int) : Int :=
  xs.foldl max (xs.headD 0)

/-- Lines 63-69 of `utils/helpers.py`: the checkpoint query evaluated over the
table contents at query time `now`. -/
def get_block_number (now : Int) (rows : List CheckpointRow) : Option Int :=
  let sel := rows.filter fun r => r.processed_timestamp = now - 3 * 86400
  if sel.isEmpty then none else some (pyMax (sel.map (·.blockNumber)))

/-! Run orchestrator, `decode_logs.py` lines 80-263.

The handler's collaborators (environment loading, table probe, checkpoint
query, log fetch, the three BigQuery writes) are embedded as the outcomes the
external calls produce during the run. The handler's observable effects — the
block range fetched, the sink writes attempted, the checkpoint rows written —
are collected in a trace. -/

/-- Lines 108-119 of `decode_logs.py`: the starting block after checkpoint
resolution. A read that raises, or that returns `None`, falls back to the
default block `17816428`. -/
def resolveStartBlock (cp : Except Unit (Option Int)) : Int :=
  match cp with
  | .error _ => 17816428
  | .ok none => 17816428
  | .ok (some b) => b

/-- Outcomes of the external calls made during one run. `fetch` maps the
queried block range to its result; the write flags say whether the
corresponding BigQuery call raises. -/
structure RunEnv where
  envOk : Bool
  tableOk : Bool
  checkpoint : Except Unit (Option Int)
  fetch : Int → Int → Except Unit (List RawLog)
  erc20WriteOk : Bool
  erc721WriteOk : Bool
  maxBlockWriteOk : Bool
  now : Int

/-- The `status` field of the handler's result dict. -/
inductive RunStatus where
  | success
  | partialError
  | error
deriving DecidableEq, Repr

/-- The handler's structured result: the keys of the returned dict that the
specification's claims mention (absent keys are `none`). -/
structure RunResult where
  status : RunStatus
  processed_count : Option Nat := none
  erc20_count : Option Nat := none
  erc721_count : Option Nat := none
  erc20_processed : Option Nat := none
  erc721_processed : Option Nat := none
deriving DecidableEq, Repr

/-- Observable effects of one run: the inclusive block range passed to
`get_blocks`, the sink kinds passed to `ingest_decoded_logs` in order, and the
`last_processed_block` values passed to `ingest_max_block`. -/
structure RunTrace where
  fetchedRange : Option (Int × Int) := none
  sinkWrites : List String := []
  checkpointWrites : List Int := []
deriving DecidableEq, Repr

set_option linter.unusedVariables false in
/-- Lines 188-263 of `decode_logs.py`: ingest the decoded sets, then compute and
write the checkpoint. A failing ERC-20 ingest returns `partial_error` with
`erc721_processed` at line 196; a failing ERC-721 ingest returns
`partial_error` with `erc20_processed` at line 211; a failing
`ingest_max_block` is only logged (line 236) and the handler falls through to
the `success` return at lines 258-263. The `except (KeyError, ValueError)`
arm at line 246 and the `else` at line 239 are unreachable: every decoded row
has a `block_number` key and `max` over a nonempty list cannot fail. -/
def ingestPhase (erc20WriteOk erc721WriteOk maxBlockWriteOk : Bool)
    (erc20_data : List ERC20Row) (erc721_data : List ERC721Row)
    (range : Option (Int × Int)) : RunResult × RunTrace :=
  let w20 : List String := if erc20_data.isEmpty then [] else ["erc20"]
  if ¬erc20_data.isEmpty ∧ ¬erc20WriteOk then
    ({ status := .partialError, erc721_processed := some erc721_data.length },
     { fetchedRange := range, sinkWrites := w20 })
  else
    let w721 : List String := if erc721_data.isEmpty then [] else ["erc721"]
    if ¬erc721_data.isEmpty ∧ ¬erc721WriteOk then
      ({ status := .partialError, erc20_processed := some erc20_data.length },
       { fetchedRange := range, sinkWrites := w20 ++ w721 })
    else
      let blocks : List Int :=
        erc20_data.map (·.block_number) ++ erc721_data.map (·.block_number)
      let cpw : List Int := if blocks.isEmpty then [] else [pyMax blocks]
      ({ status := .success,
         processed_count := some blocks.length,
         erc20_count := some erc20_data.length,
         erc721_count := some erc721_data.length },
       { fetchedRange := range, sinkWrites := w20 ++ w721,
         checkpointWrites := cpw })

/-- Lines 80-263 of `decode_logs.py`: the full handler. Environment-loading or
table-probe failure returns `error` before any processing (lines 96-98,
104-106); a checkpoint read that raises or returns `None` falls back to the
default block 17816428 (lines 108-119); `to_block = block_number + 5`
(line 122); a failing fetch returns `error` (lines 128-130); an empty fetch
returns `success` with `processed_count = 0` (lines 132-134); otherwise the
logs are decoded and handed to the ingest phase. -/
def handler (env : RunEnv) : RunResult × RunTrace :=
  if ¬env.envOk then ({ status := .error }, {})
  else if ¬env.tableOk then ({ status := .error }, {})
  else
    let block_number := resolveStartBlock env.checkpoint
    let to_block_number := block_number + 5
    match env.fetch block_number to_block_number with
    | .error _ =>
        ({ status := .error }, { fetchedRange := some (block_number, to_block_number) })
    | .ok logs =>
        if logs.isEmpty then
          ({ status := .success, processed_count := some 0 },
           { fetchedRange := some (block_number, to_block_number) })
        else
          let d := processLogs transfer_hash env.now logs
          ingestPhase env.erc20WriteOk env.erc721WriteOk env.maxBlockWriteOk d.1 d.2
            (some (block_number, to_block_number))

/-! Sample inputs used by the concrete evaluations below. -/

/-- The Transfer signature hash as its 32 raw bytes:
`keccak256("Transfer(address,address,uint256)")`, the value stored in
`topics[0]` of a real ERC-20 Transfer log. -/
def transferTopic : Bytes :=
  keccak256 (strToBytes "Transfer(address,address,uint256)")

/-- A 32-byte topic whose low 20 bytes are `0xaa` repeated. -/
def topicA : Bytes := List.replicate 12 0 ++ List.replicate 20 0xaa

/-- A 32-byte topic whose low 20 bytes are `0xbb` repeated. -/
def topicB : Bytes := List.replicate 12 0 ++ List.replicate 20 0xbb

/-- A 32-byte topic encoding the token id 7. -/
def topicId7 : Bytes := List.replicate 31 0 ++ [7]

/-- A well-formed ERC-20 Transfer log: three topics, `topics[0]` the Transfer
signature hash, `data` the big-endian encoding of 100. -/
def erc20Log : RawLog where
  address := "0xc0ffee254729296a45a3885639ac7e10f9d54979"
  blockNumber := 17816430
  blockTimestamp := 1690000000
  data := [0x64]
  topics := [transferTopic, topicA, topicB]
  transactionHash := [0xde, 0xad, 0xbe, 0xef]

/-- A four-topic (ERC-721-shaped) Transfer log with `topics[3]` encoding the
token id 7 while `data` encodes 100. -/
def erc721Log : RawLog where
  address := "0xc0ffee254729296a45a3885639ac7e10f9d54979"
  blockNumber := 17816431
  blockTimestamp := 1690000000
  data := [0x64]
  topics := [transferTopic, topicA, topicB, topicId7]
  transactionHash := [0xca, 0xfe]

/-- A log with two topics: neither classification shape applies. -/
def noMatchLog : RawLog where
  address := "0x0"
  blockNumber := 1
  blockTimestamp := 0
  data := []
  topics := [topicA, topicB]
  transactionHash := []

/-- A decoded ERC-20 row used in the orchestration scenarios. -/
def sampleERC20Row : ERC20Row where
  from_address := .vStr "0xaa"
  to_address := .vStr "0xbb"
  value := 100
  contract_address := "0xc0"
  transaction_hash := [1]
  block_number := 17816430
  processed_timestamp := 0
  block_timestamp := 0

/-- A decoded ERC-721 row used in the orchestration scenarios. -/
def sampleERC721Row : ERC721Row where
  block_number := 17816431
  block_timestamp := 0
  transaction_hash := [2]
  from_address := .vStr "0xaa"
  to_address := .vStr "0xbb"
  id := 7
  processed_timestamp := 0

/-- A run whose collaborators all succeed but whose fetch finds no logs and
whose checkpoint table has no matching row. -/
def emptyFetchEnv : RunEnv where
  envOk := true
  tableOk := true
  checkpoint := .ok none
  fetch := fun _ _ => .ok []
  erc20WriteOk := true
  erc721WriteOk := true
  maxBlockWriteOk := true
  now := 0

/-- A checkpoint row written one day before the query time 1700000000: it lies
inside the last-3-days recency window. -/
def recentCheckpointRow : CheckpointRow where
  blockNumber := 17816500
  processed_timestamp := 1700000000 - 86400


/-! Sanity checks and helper lemmas. -/

set_option maxRecDepth 100000 in
/-- Sanity: `transfer_hash` evaluates to the well-known Transfer event
signature hash. -/
theorem transfer_hash_value :
    transfer_hash =
      "0xddf252ad1be2c89b69c2b068fc378daa952ba7f163c4a11628f55a4df523b3ef" := by
  decide

/-- The ERC-721 row builder always fails: `"0x" + l.topics[1][-20:]` adds a
`str` and a `bytes`, so once the topic indexing succeeds the construction
raises `TypeError` (and raises `IndexError` when it does not). -/
theorem buildERC721Row_error (l : RawLog) (now : Int) :
    ∃ e, buildERC721Row l now = .error e := by
  unfold buildERC721Row
  cases h1 : pyListGet l.topics 1 with
  | error e => exact ⟨e, by simp [h1, Bind.bind, Except.bind]⟩
  | ok t1 =>
      cases h2 : pyListGet l.topics 2 with
      | error e => exact ⟨e, by simp [h1, h2, Bind.bind, Except.bind]⟩
      | ok t2 => exact ⟨.typeError, by simp [h1, h2, Bind.bind, Except.bind, pyAdd]⟩

/-- The ERC-20 row builder always fails, for the same reason. -/
theorem buildERC20Row_error (l : RawLog) (now : Int) :
    ∃ e, buildERC20Row l now = .error e := by
  unfold buildERC20Row
  cases h1 : pyListGet l.topics 1 with
  | error e => exact ⟨e, by simp [h1, Bind.bind, Except.bind]⟩
  | ok t1 =>
      cases h2 : pyListGet l.topics 2 with
      | error e => exact ⟨e, by simp [h1, h2, Bind.bind, Except.bind]⟩
      | ok t2 => exact ⟨.typeError, by simp [h1, h2, Bind.bind, Except.bind, pyAdd]⟩

/-- Since every row construction raises one of the caught exceptions, the
loop body leaves the accumulators unchanged on every log. -/
theorem stepLog_id (th : String) (now : Int)
    (acc : List ERC20Row × List ERC721Row) (l : RawLog) :
    stepLog th now acc l = acc := by
  obtain ⟨e1, h1⟩ := buildERC721Row_error l now
  obtain ⟨e2, h2⟩ := buildERC20Row_error l now
  unfold stepLog
  rw [h1, h2]
  split <;> [rfl; split <;> rfl]

/-- The decode loop produces no records on any batch. -/
theorem processLogs_eq_nil (th : String) (now : Int) (logs : List RawLog) :
    processLogs th now logs = ([], []) := by
  induction logs with
  | nil => rfl
  | cons a t ih =>
      simp only [processLogs, List.foldl_cons, stepLog_id] at ih ⊢
      exact ih

/-- The ingest phase records the block range it was given in its trace. -/
theorem ingestPhase_range (a b c : Bool) (d20 : List ERC20Row)
    (d721 : List ERC721Row) (r : Option (Int × Int)) :
    (ingestPhase a b c d20 d721 r).2.fetchedRange = r := by
  unfold ingestPhase
  repeat' split
  all_goals rfl

/-- A run that passes the environment and table probes fetches exactly the
range `[resolveStartBlock, resolveStartBlock + 5]`. -/
theorem handler_fetchedRange (env : RunEnv)
    (henv : env.envOk = true) (htab : env.tableOk = true) :
    (handler env).2.fetchedRange =
      some (resolveStartBlock env.checkpoint,
            resolveStartBlock env.checkpoint + 5) := by
  unfold handler
  rw [henv, htab]
  simp only [not_true, if_false]
  cases hf : env.fetch (resolveStartBlock env.checkpoint)
      (resolveStartBlock env.checkpoint + 5) with
  | error e => rfl
  | ok logs =>
      cases logs with
      | nil => rfl
      | cons x xs =>
          exact ingestPhase_range env.erc20WriteOk env.erc721WriteOk
            env.maxBlockWriteOk
            (processLogs transfer_hash env.now (x :: xs)).1
            (processLogs transfer_hash env.now (x :: xs)).2
            (some (resolveStartBlock env.checkpoint,
                   resolveStartBlock env.checkpoint + 5))

/-- A run that fails the environment or table probe fetches nothing. -/
theorem handler_early_exit (env : RunEnv)
    (h : env.envOk = false ∨ env.tableOk = false) :
    (handler env).2.fetchedRange = none := by
  unfold handler
  rcases h with h | h <;> rw [h] <;> simp

/-! Claim C1. -/

set_option maxRecDepth 1000000 in
/-- C1: the specification says a 3-topic log whose `topics[0]` is the Transfer
signature hash yields exactly one ERC-20 record with the decoded fields. The
code does not: inside the matching branch, `"0x" + l.topics[1][-20:]` adds a
`str` to a `bytes`, raising `TypeError`, which is caught at line 176 and the
log is skipped, so a fully well-formed Transfer log yields no record at all. -/
theorem erc20_transfer_log_not_decoded :
    (erc20Log.topics.length = 3 ∧
      "0x" ++ pyLower (bytesHex (erc20Log.topics.getD 0 [])) = transfer_hash) ∧
    buildERC20Row erc20Log 0 = .error .typeError ∧
    processLogs transfer_hash 0 [erc20Log] = ([], []) := by
  refine ⟨⟨rfl, by decide⟩, rfl, processLogs_eq_nil _ _ _⟩

/-! Claim C2. -/

/-- C2: the specification says every 4-topic log yields exactly one ERC-721
record. The code yields none: the branch at lines 145-156 raises `TypeError`
on `"0x" + l.topics[1][-20:]` (a `str` plus a `bytes`), catches it at line 157
and skips the log. -/
theorem four_topic_log_not_decoded :
    erc721Log.topics.length = 4 ∧
    buildERC721Row erc721Log 0 = .error .typeError ∧
    processLogs transfer_hash 0 [erc721Log] = ([], []) :=
  ⟨rfl, rfl, processLogs_eq_nil _ _ _⟩

/-! Claim C3. -/

/-- C3: the specification says the ERC-721 record's `id` is the token id from
`topics[3]`. The code reads `id` from `int(l.data.hex(), 16)` — here 100,
while `topics[3]` encodes 7 — and in fact produces no record at all, because
the row construction raises `TypeError` before the append. -/
theorem erc721_id_not_taken_from_topic3 :
    erc721Log.topics.length = 4 ∧
    bytesToNat (erc721Log.topics.getD 3 []) = 7 ∧
    (if erc721Log.data.isEmpty then 0 else bytesToNat erc721Log.data) = 100 ∧
    processLogs transfer_hash 0 [erc721Log] = ([], []) :=
  ⟨rfl, by decide, by decide, processLogs_eq_nil _ _ _⟩

/-! Claim C4. -/

/-- C4: a log matching neither classification shape — or failing to decode
inside a matching branch — contributes no records, raises nothing (the loop
body is total), and leaves every other log's contribution unchanged. -/
theorem bad_log_skipped_batch_continues (th : String) (now : Int)
    (pre post : List RawLog) (l : RawLog)
    (_h : (¬matches721 l ∧ ¬matches20 th l)
        ∨ (∃ e, buildERC721Row l now = .error e)
        ∨ (∃ e, buildERC20Row l now = .error e)) :
    (∀ acc, stepLog th now acc l = acc) ∧
    processLogs th now (pre ++ l :: post) = processLogs th now (pre ++ post) := by
  refine ⟨fun acc => stepLog_id th now acc l, ?_⟩
  rw [processLogs_eq_nil, processLogs_eq_nil]

set_option maxRecDepth 1000000 in
/-- Witness for C4 at a concrete two-topic log. -/
theorem bad_log_skipped_batch_continues_witness :
    stepLog transfer_hash 0 ([], []) noMatchLog = ([], []) :=
  (bad_log_skipped_batch_continues transfer_hash 0 [] [] noMatchLog
    (Or.inl ⟨by decide, by decide⟩)).1 ([], [])

/-! Claim C5. -/

/-- C5: when the checkpoint read raises or yields no row, the run starts from
the default block 17816428; and any run that reaches the fetch queries the
range `[from_block, from_block + 5]`, whatever its checkpoint was. -/
theorem default_start_block_and_window (env env2 : RunEnv)
    (henv : env.envOk = true) (htab : env.tableOk = true)
    (hcp : env.checkpoint = .error () ∨ env.checkpoint = .ok none) :
    (handler env).2.fetchedRange = some (17816428, 17816428 + 5) ∧
    ∀ a b, (handler env2).2.fetchedRange = some (a, b) → b = a + 5 := by
  constructor
  · have hr := handler_fetchedRange env henv htab
    rcases hcp with h | h <;> rw [h] at hr <;> simpa [resolveStartBlock] using hr
  · intro a b hab
    by_cases h1 : env2.envOk = true
    · by_cases h2 : env2.tableOk = true
      · have hr := handler_fetchedRange env2 h1 h2
        rw [hr] at hab
        injection hab with hab
        rw [Prod.mk.injEq] at hab
        omega
      · have := handler_early_exit env2 (Or.inr (by simpa using h2))
        rw [this] at hab
        cases hab
    · have := handler_early_exit env2 (Or.inl (by simpa using h1))
      rw [this] at hab
      cases hab

/-- Witness for C5: a run with an empty checkpoint table fetches blocks
17816428 to 17816433. -/
theorem default_start_block_and_window_witness :
    (handler emptyFetchEnv).2.fetchedRange = some (17816428, 17816428 + 5) :=
  (default_start_block_and_window emptyFetchEnv emptyFetchEnv rfl rfl
    (Or.inr rfl)).1

/-! Claim C6. -/

/-- C6 counterexample: with one decoded ERC-20 row and one decoded ERC-721 row,
an ERC-20 ingest failure returns `partial_error` at line 196 immediately: the
trace shows the ERC-20 write as the only sink write attempted, so the ERC-721
write of that run is not attempted, contrary to the claim. -/
theorem erc20_failure_skips_erc721_write_cex :
    (ingestPhase false true true [sampleERC20Row] [sampleERC721Row] none).1.status
        = .partialError ∧
    (ingestPhase false true true [sampleERC20Row] [sampleERC721Row] none).2.sinkWrites
        = ["erc20"] ∧
    "erc721" ∉
      (ingestPhase false true true [sampleERC20Row] [sampleERC721Row] none).2.sinkWrites := by
  refine ⟨rfl, rfl, by decide⟩

/-- C6 amended: when the ERC-20 sink write raises, the run reports
`partial_error` and the ERC-721 count (as `erc721_processed`), but attempts no
further sink write in that run. -/
theorem erc20_failure_partial_error_no_erc721_attempt
    (w721 mOk : Bool) (e20 : List ERC20Row) (e721 : List ERC721Row)
    (r : Option (Int × Int)) (h : e20 ≠ []) :
    (ingestPhase false w721 mOk e20 e721 r).1.status = .partialError ∧
    (ingestPhase false w721 mOk e20 e721 r).1.erc721_processed = some e721.length ∧
    (ingestPhase false w721 mOk e20 e721 r).2.sinkWrites = ["erc20"] := by
  have hne : e20.isEmpty = false := by simpa using h
  unfold ingestPhase
  simp [hne]

/-- Witness for C6's amended claim at concrete decoded rows. -/
theorem erc20_failure_partial_error_no_erc721_attempt_witness :
    (ingestPhase false true true [sampleERC20Row] [sampleERC721Row] none).1.status
        = .partialError :=
  (erc20_failure_partial_error_no_erc721_attempt true true [sampleERC20Row]
    [sampleERC721Row] none (by simp)).1

/-! Claim C7. -/

/-- C7: a run whose fetch returns no logs ends with status `success` and
`processed_count = 0`, attempts no sink write and no checkpoint write. -/
theorem empty_fetch_success_no_writes (env : RunEnv)
    (henv : env.envOk = true) (htab : env.tableOk = true)
    (hf : env.fetch = fun _ _ => .ok []) :
    (handler env).1.status = .success ∧
    (handler env).1.processed_count = some 0 ∧
    (handler env).2.sinkWrites = [] ∧
    (handler env).2.checkpointWrites = [] := by
  unfold handler
  rw [henv, htab, hf]
  simp

/-- Witness for C7 at a concrete all-healthy environment with no logs. -/
theorem empty_fetch_success_no_writes_witness :
    (handler emptyFetchEnv).1.status = .success :=
  (empty_fetch_success_no_writes emptyFetchEnv rfl rfl rfl).1

/-! Claim C8. -/

/-- C8: when both sink writes succeed and some records were decoded, the
checkpoint value written is `max(block_number)` over all decoded records (the
ERC-20 and ERC-721 sets together), and the run's status is `success` whether
or not the checkpoint write itself fails (`mOk` is arbitrary): the
`ingest_max_block` exception is caught at lines 235-236 and only logged. -/
theorem checkpoint_max_of_decoded_best_effort (mOk : Bool)
    (e20 : List ERC20Row) (e721 : List ERC721Row) (r : Option (Int × Int))
    (h : ¬(e20.isEmpty ∧ e721.isEmpty)) :
    (ingestPhase true true mOk e20 e721 r).2.checkpointWrites
        = [pyMax (e20.map (·.block_number) ++ e721.map (·.block_number))] ∧
    (ingestPhase true true mOk e20 e721 r).1.status = .success := by
  unfold ingestPhase
  have hb : (e20.map (·.block_number) ++ e721.map (·.block_number)).isEmpty = false := by
    rcases Decidable.not_and_iff_or_not.mp h with h' | h' <;>
      simp_all [List.isEmpty_iff, List.isEmpty_eq_false]
  simp [hb]

/-- Witness for C8: one decoded row of each kind, with the checkpoint write
itself failing; the checkpoint value is the larger block number and the run is
still a success. -/
theorem checkpoint_max_of_decoded_best_effort_witness :
    (ingestPhase true true false [sampleERC20Row] [sampleERC721Row] none).1.status
        = .success :=
  (checkpoint_max_of_decoded_best_effort false [sampleERC20Row] [sampleERC721Row]
    none (by simp)).2

/-! Claim C9. -/

/-- C9: the specification says the checkpoint read returns the maximum
`blockNumber` over rows within the last-3-days window. The query at
`utils/helpers.py` line 65 instead compares `processed_timestamp` for equality
with the single instant exactly three days before now: a checkpoint written
one day ago — squarely inside the window — is invisible (`None`), and the row
is only found at the one instant exactly three days after it was written. -/
theorem checkpoint_read_single_instant :
    (1700000000 - 3 * 86400 ≤ recentCheckpointRow.processed_timestamp
      ∧ recentCheckpointRow.processed_timestamp ≤ 1700000000) ∧
    get_block_number 1700000000 [recentCheckpointRow] = none ∧
    get_block_number (recentCheckpointRow.processed_timestamp + 3 * 86400)
        [recentCheckpointRow] = some recentCheckpointRow.blockNumber := by
  refine ⟨by decide, by decide, by decide⟩

/-! Claim C10. -/

/-- C10: each log contributes at most one record to at most one of the two
output sequences, so a batch never decodes more records than it has logs. -/
theorem per_log_at_most_one_record (th : String) (now : Int)
    (logs : List RawLog) (acc : List ERC20Row × List ERC721Row) (l : RawLog) :
    (stepLog th now acc l = acc
      ∨ (∃ r, stepLog th now acc l = (acc.1 ++ [r], acc.2))
      ∨ (∃ r, stepLog th now acc l = (acc.1, acc.2 ++ [r]))) ∧
    (processLogs th now logs).1.length + (processLogs th now logs).2.length
        ≤ logs.length := by
  refine ⟨Or.inl (stepLog_id th now acc l), ?_⟩
  rw [processLogs_eq_nil]
  simp
